import Mathlib

/-!
Verification of the louis-log structured logger's record pipeline.

The definitions below are a shallow embedding of the second (authoritative)
`Logger` implementation in `src/index.ts`: level routing in `sendLog`, the
text-line formatter `formTxtLog`, the datatype conversion `handleLogDatatype`,
the date-bucketed path derivation `generatePaths`, the batched file sink
(`logToFile` / `extractBuffer`), the webhook batching in `sendWebhook`, and the
shutdown routine `exit`.  Opaque externals (the `dateFormat` library, the file
append primitive, the HTTP transport) are modelled as pure functions or as
explicit event ledgers on the state.
-/

namespace LouisLog

/-- Log levels of the implementation.  The source uses string tags; `FATALRATE`
is the internal level used to report webhook delivery problems. -/
inductive LogLevel
  | FATAL
  | FATALRATE
  | ERROR
  | WARN
  | SUCCESS
  | INFO
  | DEBUG
deriving DecidableEq, Repr

/-- String tag of a level, as the source's string literals. -/
def levelString : LogLevel → String
  | .FATAL => "FATAL"
  | .FATALRATE => "FATALRATE"
  | .ERROR => "ERROR"
  | .WARN => "WARN"
  | .SUCCESS => "SUCCESS"
  | .INFO => "INFO"
  | .DEBUG => "DEBUG"

/-- The recognized `splitBy` values of `LogStorageSettings`. -/
inductive SplitBy
  | dontSplit
  | year
  | month
  | day
  | hour
  | minute
  | second
deriving DecidableEq, Repr

/-- The `stratagy` field (source spelling) of `LogStorageSettings`. -/
inductive Strategy
  | single
  | batch
deriving DecidableEq, Repr

/-- `LogFormatSettings` (the `show` group). -/
structure FormatSettings where
  stdoutEnable : Bool
  mainProgram : Bool
  subProgram : Bool
  date : Bool
  dateformat : String
  level : Bool
  ignoreLevels : List LogLevel
deriving DecidableEq, Repr

/-- `LogStorageSettings` (the `logStorage` group). -/
structure StorageSettings where
  path : String
  json : Bool
  txt : Bool
  splitBy : SplitBy
  stratagy : Strategy
  batch : Nat
  ignoreLevels : List LogLevel
deriving DecidableEq, Repr

/-- `LogWebhookSettings` (the `logWebook` group, source spelling). -/
structure WebhookSettings where
  enable : Bool
  url : Option String
  form : String
deriving DecidableEq, Repr

/-- A calendar timestamp, standing for the JS `Date` handed to the sinks.
`month` and `day` are the one-based values that the `dateFormat` library
renders for the patterns `mm` and `dd`. -/
structure DateTime where
  year : Nat
  month : Nat
  day : Nat
  hour : Nat
  minute : Nat
  second : Nat
deriving DecidableEq, Repr

/-- Two-digit zero padding, as `dateFormat` renders `mm`, `dd`, `HH`, `MM`, `ss`. -/
def pad2 (n : Nat) : String :=
  if n < 10 then "0" ++ toString n else toString n

/-- Four-digit zero padding, as `dateFormat` renders `yyyy`. -/
def pad4 (n : Nat) : String :=
  if n < 10 then "000" ++ toString n
  else if n < 100 then "00" ++ toString n
  else if n < 1000 then "0" ++ toString n
  else toString n

/-- Result of `generatePaths`: the directory that is created and the file-path
stem the two log files are appended to. -/
structure Paths where
  dirLocation : String
  logLocation : String
deriving DecidableEq, Repr

/-- Shallow embedding of `generatePaths` (src/index.ts lines 597-635).  The
opaque `dateFormat(currentTime, pattern)` calls are expanded into the padded
fields for the exact patterns the source uses.  Note that in the `year` case
the source assigns `logLocation += dateFormat(currentTime, "yyyy") + "."`
without prefixing `dirLocation`, unlike every other branch. -/
def generatePaths (path : String) (splitBy : SplitBy) (t : DateTime) : Paths :=
  match splitBy with
  | .dontSplit =>
      let d := path ++ "/"
      ⟨d, d ++ "logs."⟩
  | .year =>
      let d := path ++ "/"
      ⟨d, pad4 t.year ++ "."⟩
  | .month =>
      let d := path ++ "/" ++ pad4 t.year ++ "/"
      ⟨d, d ++ pad2 t.month ++ "."⟩
  | .day =>
      let d := path ++ "/" ++ pad4 t.year ++ "/" ++ pad2 t.month ++ "/"
      ⟨d, d ++ pad2 t.day ++ "."⟩
  | .hour =>
      let d := path ++ "/" ++ pad4 t.year ++ "/" ++ pad2 t.month ++ "/" ++ pad2 t.day ++ "/"
      ⟨d, d ++ pad2 t.hour ++ "."⟩
  | .minute =>
      let d := path ++ "/" ++ pad4 t.year ++ "/" ++ pad2 t.month ++ "/" ++ pad2 t.day ++ "/" ++
        pad2 t.hour ++ "/"
      ⟨d, d ++ pad2 t.minute ++ "."⟩
  | .second =>
      let d := path ++ "/" ++ pad4 t.year ++ "/" ++ pad2 t.month ++ "/" ++ pad2 t.day ++ "/" ++
        pad2 t.hour ++ "/" ++ pad2 t.minute ++ "/"
      ⟨d, d ++ pad2 t.second ++ "."⟩

/-- Shallow embedding of `formTxtLog` (src/index.ts lines 515-536): the text
line is built by sequential appends to an accumulator, each guarded by a
format setting. -/
def formTxtLog (fs : FormatSettings) (mainProcess subProcess : String)
    (formattedDate logMessage logLevel logDataString : String) : String :=
  let m1 := "" ++ (if fs.date then "[" ++ formattedDate ++ "] " else "")
  let m2 := m1 ++ (if fs.mainProgram || fs.subProgram then "<" else "")
  let m3 := m2 ++ (if fs.mainProgram then mainProcess else "")
  let m4 := m3 ++ (if fs.mainProgram && fs.subProgram then "." else "")
  let m5 := m4 ++ (if fs.subProgram then subProcess else "")
  let m6 := m5 ++ (if fs.mainProgram || fs.subProgram then "> " else "")
  let m7 := m6 ++ (if fs.level then "[" ++ logLevel ++ "] " else "")
  let m8 := m7 ++ logMessage
  m8 ++ (if logDataString ≠ "" then "\nLog Data:\n" ++ logDataString else "")

/-- A JavaScript value as seen by `handleLogDatatype`, classified by `typeof`.
Object values carry their flat field list together with a `circular` flag:
`JSON.stringify` throws exactly on non-serializable objects (circular
references and the like), which the flag records. -/
inductive JSValue
  | jsUndefined
  | jsNull
  | jsString (s : String)
  | jsNumber (n : Int)
  | jsBool (b : Bool)
  | jsBigint (n : Int)
  | jsSymbol (desc : String)
  | jsFunction (src : String)
  | jsObject (fields : List (String × Int)) (circular : Bool)
  | jsUnknown
deriving DecidableEq, Repr

/-- An internal record emitted through `this.error` / `this.fatalRate`. -/
structure ErrRecord where
  level : LogLevel
  message : String
deriving DecidableEq, Repr

/-- Joins a list of strings with a separator. -/
def sepJoin (sep : String) : List String → String
  | [] => ""
  | [x] => x
  | x :: y :: xs => x ++ sep ++ sepJoin sep (y :: xs)

/-- `JSON.stringify(value, null, 4)` for a flat object of numeric fields:
4-space indentation, one field per line. -/
def stringify4 (fields : List (String × Int)) : String :=
  match fields with
  | [] => "\x7b\x7d"
  | _ =>
      "\x7b\n" ++
        sepJoin ",\n" (fields.map (fun kv => "    \"" ++ kv.1 ++ "\": " ++ toString kv.2)) ++
        "\n\x7d"

/-- Shallow embedding of `handleLogDatatype` (src/index.ts lines 672-692).
Returns the converted string together with the internal ERROR record the
method emits through `this.error`, if any.  The source's loose
`logData == undefined` test is true for both `undefined` and `null`. -/
def handleLogDatatype (v : JSValue) : String × Option ErrRecord :=
  match v with
  | .jsUndefined => ("", none)
  | .jsNull => ("", none)
  | .jsString s => (s, none)
  | .jsNumber n => (toString n, none)
  | .jsBool b => (if b then "true" else "false", none)
  | .jsBigint n => (toString n, none)
  | .jsSymbol desc => ("Symbol(" ++ desc ++ ")", none)
  | .jsFunction src => (src, none)
  | .jsObject fields circular =>
      if circular then ("", some ⟨.ERROR, "Datatype of object is not json"⟩)
      else (stringify4 fields, none)
  | .jsUnknown => ("Datatype error", some ⟨.ERROR, "Datatype Error"⟩)

/-- One embed item of the webhook batch (`Types.WebhookBufferItem`); the
constant `color: null` field is omitted. -/
structure Embed where
  title : String
  description : String
  footerText : String
deriving DecidableEq, Repr

/-- The embed built in `sendWebhook` (src/index.ts lines 454-466): data strings
longer than 4000 characters are replaced by a placeholder; empty data yields
an empty description. -/
def buildEmbed (mainProcess subProcess : String) (level : LogLevel)
    (logMessageString logDataString formattedDate : String) : Embed :=
  { title := "<" ++ mainProcess ++ "." ++ subProcess ++ "> [" ++ levelString level ++ "] " ++
      logMessageString
    description :=
      if logDataString ≠ "" then
        "```json\n" ++
          (if logDataString.length > 4000 then
            "The data provided is too long for an embed. Check file based or stdout based logs."
          else logDataString) ++ "\n```"
      else ""
    footerText := formattedDate }

/-- Result of one `sendWebhook` call: the webhook buffer afterwards, the batch
handed to `fetch` if a delivery was attempted, whether a `fatalRate` record was
emitted (the overflow branch), and whether an internal ERROR was emitted (the
unsupported-provider branch). -/
structure WebhookStepResult where
  buffer : List Embed
  delivery : Option (List Embed)
  fatalRateEmitted : Bool
  errorEmitted : Bool
deriving DecidableEq, Repr

/-- Shallow embedding of `sendWebhook` (src/index.ts lines 439-513).  Guards in
source order: the internal `FATALRATE` level returns before anything else, then
a missing url, then a non-discord provider (which emits an ERROR record).
Otherwise the embed is pushed; a length above 8 is the overflow branch
(one `fatalRate` record, buffer discarded, no delivery); a length of exactly 8
posts the whole batch and clears the buffer synchronously. -/
def sendWebhook (ws : WebhookSettings) (mainProcess subProcess : String)
    (formattedDate logMessageString : String) (level : LogLevel) (logDataString : String)
    (buf : List Embed) : WebhookStepResult :=
  if level = .FATALRATE then ⟨buf, none, false, false⟩
  else if ws.url = none then ⟨buf, none, false, false⟩
  else if ws.form ≠ "discord" then ⟨buf, none, false, true⟩
  else
    let buf2 := buf ++ [buildEmbed mainProcess subProcess level logMessageString
      logDataString formattedDate]
    if buf2.length > 8 then ⟨[], none, true, false⟩
    else if buf2.length = 8 then ⟨[], some buf2, false, false⟩
    else ⟨buf2, none, false, false⟩

/-- A rendered record pair as buffered by the file sink: the text line
(`logTXT`) and the JSON-lines string (`logJSONString`). -/
abbrev RenderedPair := String × String

/-- Concatenation of a list of strings, the result of the source's
string-accumulator loops. -/
def strConcat : List String → String
  | [] => ""
  | x :: xs => x ++ strConcat xs

/-- The newline-terminated concatenation of the buffered text lines, as the
`txtUnpacked += logItem.logTXT + "\n"` loop of `extractBuffer` computes it. -/
def bufTxt (buf : List RenderedPair) : String :=
  strConcat (buf.map (fun p => p.1 ++ "\n"))

/-- The newline-terminated concatenation of the buffered JSON lines, as the
`jsonUnpacked` loop of `extractBuffer` computes it. -/
def bufJson (buf : List RenderedPair) : String :=
  strConcat (buf.map (fun p => p.2 ++ "\n"))

/-- File-sink state: the in-memory `logBuffer`, a count of `extractBuffer`
invocations (drain events), and ledgers of the append operations performed on
the text and JSON files, each entry a (file path, appended content) pair. -/
structure FileState where
  logBuffer : List RenderedPair
  flushCount : Nat
  writesTxt : List (String × String)
  writesJson : List (String × String)
deriving DecidableEq, Repr

/-- Shallow embedding of `extractBuffer` (src/index.ts lines 637-670): derive
the bucket paths from the draining call's timestamp, concatenate the buffered
lines FIFO (the `shift()` loop empties the buffer), and append each
concatenation to its file when the corresponding format is enabled. -/
def extractBuffer (ss : StorageSettings) (t : DateTime) (s : FileState) : FileState :=
  let paths := generatePaths ss.path ss.splitBy t
  let txtUnpacked := bufTxt s.logBuffer
  let jsonUnpacked := bufJson s.logBuffer
  { logBuffer := []
    flushCount := s.flushCount + 1
    writesTxt := s.writesTxt ++
      (if ss.txt then [(paths.logLocation ++ "txt.log", txtUnpacked)] else [])
    writesJson := s.writesJson ++
      (if ss.json then [(paths.logLocation ++ "json.log", jsonUnpacked)] else []) }

/-- Shallow embedding of the storing part of `logToFile` (src/index.ts lines
566-594): under `stratagy == "batch" && batch > 1` the pair is pushed and the
buffer drained once its length reaches the batch size; otherwise each enabled
format is appended immediately, one newline-terminated line per record. -/
def logToFile (ss : StorageSettings) (t : DateTime) (p : RenderedPair)
    (s : FileState) : FileState :=
  if ss.stratagy = .batch ∧ ss.batch > 1 then
    let buf := s.logBuffer ++ [p]
    if buf.length ≥ ss.batch then extractBuffer ss t { s with logBuffer := buf }
    else { s with logBuffer := buf }
  else
    let paths := generatePaths ss.path ss.splitBy t
    { s with
      writesTxt := s.writesTxt ++
        (if ss.txt then [(paths.logLocation ++ "txt.log", p.1 ++ "\n")] else [])
      writesJson := s.writesJson ++
        (if ss.json then [(paths.logLocation ++ "json.log", p.2 ++ "\n")] else []) }

/-- Dispatches a sequence of timestamped rendered records through `logToFile`
in submission order. -/
def dispatchAll (ss : StorageSettings) (ps : List (DateTime × RenderedPair))
    (s : FileState) : FileState :=
  ps.foldl (fun st q => logToFile ss q.1 q.2 st) s

/-- The `LogJSON` structure formed in `logToFile` (src/index.ts lines 548-556). -/
structure LogJSON where
  date : DateTime
  formattedDate : String
  mainProcess : String
  subProcess : String
  logLevel : String
  logMessage : String
  logData : String
deriving DecidableEq, Repr

/-- Builds the `LogJSON` record exactly as `logToFile` populates it. -/
def mkLogJSON (t : DateTime) (formattedDate mainProcess subProcess : String)
    (level : LogLevel) (logMessageString logDataString : String) : LogJSON :=
  ⟨t, formattedDate, mainProcess, subProcess, levelString level,
    logMessageString, logDataString⟩

/-- ISO-like rendering of the `date` field used by the JSON serializer. -/
def isoString (t : DateTime) : String :=
  pad4 t.year ++ "-" ++ pad2 t.month ++ "-" ++ pad2 t.day ++ "T" ++
    pad2 t.hour ++ ":" ++ pad2 t.minute ++ ":" ++ pad2 t.second ++ "Z"

/-- One `"key":"value"` field of the single-line JSON serialization.  Inner
string escaping is elided: no claim depends on it. -/
def jsonField (k v : String) : String :=
  "\"" ++ k ++ "\":\"" ++ v ++ "\""

/-- `JSON.stringify(logJSON)`: the single-line JSON-lines rendering of a
`LogJSON` record. -/
def serializeLogJSON (j : LogJSON) : String :=
  "\x7b" ++ sepJoin ","
    [jsonField "date" (isoString j.date),
     jsonField "formattedDate" j.formattedDate,
     jsonField "mainProcess" j.mainProcess,
     jsonField "subProcess" j.subProcess,
     jsonField "logLevel" j.logLevel,
     jsonField "logMessage" j.logMessage,
     jsonField "logData" j.logData] ++ "\x7d"

/-- Result of one `sendLog` dispatch: the console line printed (if any), the
file-sink state afterwards, and the webhook step outcome. -/
structure DispatchResult where
  consoleOut : Option String
  fileState : FileState
  webhook : WebhookStepResult
deriving DecidableEq, Repr

/-- Shallow embedding of `sendLog` (src/index.ts lines 415-438): render once,
then print to console iff stdout is enabled and the level is not in the format
ignore set, forward to the file sink iff a format is enabled and the level is
not in the storage ignore set, and forward to the webhook sink iff the webhook
is enabled (further filtered inside `sendWebhook`). -/
def sendLog (fs : FormatSettings) (ss : StorageSettings) (ws : WebhookSettings)
    (mainProcess subProcess : String) (t : DateTime) (formattedDate : String)
    (level : LogLevel) (logMessage logData : JSValue)
    (fileSt : FileState) (whBuf : List Embed) : DispatchResult :=
  let logMessageString := (handleLogDatatype logMessage).1
  let logDataString := (handleLogDatatype logData).1
  let txtLog := formTxtLog fs mainProcess subProcess formattedDate logMessageString
    (levelString level) logDataString
  { consoleOut :=
      if fs.stdoutEnable ∧ ¬ level ∈ fs.ignoreLevels then some txtLog else none
    fileState :=
      if (ss.json ∨ ss.txt) ∧ ¬ level ∈ ss.ignoreLevels then
        logToFile ss t (txtLog,
          serializeLogJSON (mkLogJSON t formattedDate mainProcess subProcess level
            logMessageString logDataString)) fileSt
      else fileSt
    webhook :=
      if ws.enable then
        sendWebhook ws mainProcess subProcess formattedDate logMessageString level
          logDataString whBuf
      else ⟨whBuf, none, false, false⟩ }

/-- Outcome of the single webhook POST the shutdown routine may perform. -/
inductive DeliveryOutcome
  | success
  | failStatus (code : Nat)
  | transportError
deriving DecidableEq, Repr

/-- Combined logger state as the shutdown routine sees it, with a ledger of
the webhook batches handed to `fetch`. -/
structure ShutdownState where
  fileState : FileState
  webhookBuffer : List Embed
  deliveries : List (List Embed)
deriving DecidableEq, Repr

/-- Shallow embedding of `exit` (src/index.ts lines 737-798).  Under the batch
strategy `extractBuffer` runs unconditionally (even on an empty buffer).  If a
url is configured and the webhook buffer is non-empty, one POST of the whole
buffer is awaited: the `.then` handler (reached on any HTTP status, 204 or not)
clears the buffer, but the `.catch` handler reached on a transport error does
not clear it. -/
def exitStep (ss : StorageSettings) (ws : WebhookSettings) (t : DateTime)
    (outcome : DeliveryOutcome) (s : ShutdownState) : ShutdownState :=
  let s1 := if ss.stratagy = .batch then
      { s with fileState := extractBuffer ss t s.fileState }
    else s
  if ws.url ≠ none ∧ s1.webhookBuffer ≠ [] then
    { s1 with
      deliveries := s1.deliveries ++ [s1.webhookBuffer]
      webhookBuffer :=
        match outcome with
        | .transportError => s1.webhookBuffer
        | _ => [] }
  else s1

/-- State produced by the constructor: merged settings and empty buffers. -/
structure LoggerInit where
  formatSettings : FormatSettings
  storageSettings : StorageSettings
  webhookSettings : WebhookSettings
  logBuffer : List RenderedPair
  webhookBuffer : List Embed
deriving DecidableEq, Repr

/-- Shallow embedding of the constructor (src/index.ts lines 343-414).  Its
only exit paths are `process.exit(1)` calls inside catch blocks guarding the
settings spreads and the initial `success`/`debug` sends, none of which can
throw for well-formed settings values; the body performs no validation of the
`stratagy`/`batch` combination, so construction always completes with the
merged settings and empty buffers. -/
def constructLogger (fs : FormatSettings) (ss : StorageSettings)
    (ws : WebhookSettings) : Except String LoggerInit :=
  Except.ok ⟨fs, ss, ws, [], []⟩

/-- The text-line layout as the specification words it (section 4.2): date
segment, then the process tag with the dot separator only when both process
flags are shown, then the level tag, the message, and the data suffix exactly
when the data string is non-empty.  This is the spec-side definition compared
against the source-side `formTxtLog`. -/
def formTxtLogSpec (fs : FormatSettings) (mainProcess subProcess : String)
    (formattedDate logMessage logLevel logDataString : String) : String :=
  (if fs.date then "[" ++ formattedDate ++ "] " else "") ++
  (if fs.mainProgram ∧ fs.subProgram then
      "<" ++ mainProcess ++ "." ++ subProcess ++ "> "
    else if fs.mainProgram then "<" ++ mainProcess ++ "> "
    else if fs.subProgram then "<" ++ subProcess ++ "> "
    else "") ++
  (if fs.level then "[" ++ logLevel ++ "] " else "") ++
  logMessage ++
  (if logDataString = "" then "" else "\nLog Data:\n" ++ logDataString)

/-- Concrete timestamp used by witnesses: 2024-06-20 17:39:05. -/
def t0 : DateTime := ⟨2024, 6, 20, 17, 39, 5⟩

/-- The default `show` settings of the source. -/
def fsDefault : FormatSettings :=
  ⟨true, true, true, true, "yyyy-mm-dd HH:MM:ss:l Z", true, [.DEBUG]⟩

/-- The default (disabled) webhook settings of the source. -/
def wsDefault : WebhookSettings := ⟨false, none, ""⟩

/-- An enabled discord webhook configuration. -/
def wsDiscord : WebhookSettings := ⟨true, some "https://example.invalid/hook", "discord"⟩

/-- A contradictory storage configuration: batch strategy with batch size 1. -/
def ssBatchOne : StorageSettings := ⟨"./logs", true, true, .day, .batch, 1, [.DEBUG]⟩

/-- A single-strategy storage configuration. -/
def ssSingle : StorageSettings := ⟨"./logs", true, true, .day, .single, 1, []⟩

/-- A batch-strategy storage configuration with batch size 2. -/
def ssBatch2 : StorageSettings := ⟨"./logs", true, true, .day, .batch, 2, []⟩

/-- The empty file-sink state. -/
def fileState0 : FileState := ⟨[], 0, [], []⟩

/-- Three concrete timestamped rendered records used by witnesses. -/
def ps3 : List (DateTime × RenderedPair) :=
  [(t0, ("a", "A")), (t0, ("b", "B")), (t0, ("c", "C"))]

/-- A concrete webhook embed used by the shutdown fixtures. -/
def embed0 : Embed := ⟨"<A.B> [INFO] m", "", "2024-06-20"⟩

/-- A shutdown-time state holding one undelivered webhook embed. -/
def shut0 : ShutdownState := ⟨fileState0, [embed0], []⟩

lemma strConcat_append (l1 l2 : List String) :
    strConcat (l1 ++ l2) = strConcat l1 ++ strConcat l2 := by
  induction l1 with
  | nil => simp [strConcat]
  | cons x xs ih => simp [strConcat, ih, String.append_assoc]

lemma strConcat_cons (x : String) (xs : List String) :
    strConcat (x :: xs) = x ++ strConcat xs := rfl

lemma strConcat_singleton (x : String) : strConcat [x] = x := by
  simp [strConcat]

lemma bufTxt_nil : bufTxt [] = "" := rfl

lemma bufJson_nil : bufJson [] = "" := rfl

lemma bufTxt_append_one (buf : List RenderedPair) (p : RenderedPair) :
    bufTxt (buf ++ [p]) = bufTxt buf ++ (p.1 ++ "\n") := by
  simp [bufTxt, strConcat_append, strConcat]

lemma bufJson_append_one (buf : List RenderedPair) (p : RenderedPair) :
    bufJson (buf ++ [p]) = bufJson buf ++ (p.2 ++ "\n") := by
  simp [bufJson, strConcat_append, strConcat]

lemma sendWebhook_fatalrate_noop (ws : WebhookSettings) (m s fd msg d : String)
    (buf : List Embed) :
    sendWebhook ws m s fd msg LogLevel.FATALRATE d buf = ⟨buf, none, false, false⟩ := by
  simp [sendWebhook]

/-- Claim C3: a record dispatched at the internal FATAL_RATE_LIMITED level
never engages the webhook sink: whatever the webhook settings, `sendWebhook`
returns with the batch unchanged, no delivery attempted, and no further
internal record emitted, so a delivery failure can never trigger another
delivery. -/
theorem fatalrate_never_enters_webhook (ws : WebhookSettings) (m s fd msg d : String)
    (buf : List Embed) :
    sendWebhook ws m s fd msg LogLevel.FATALRATE d buf = ⟨buf, none, false, false⟩ :=
  sendWebhook_fatalrate_noop ws m s fd msg d buf

/-- Claim C5 failing input: with `splitBy = year` the source computes the file
stem `"2024."` without prefixing the base directory (the `dirLocation` it just
computed is dropped), so the log files land outside the base path; the `day`
case, shown for contrast, does prefix the directory as the claim's table
requires. -/
theorem generatePaths_year_drops_base :
    generatePaths "./logs" SplitBy.year t0 = ⟨"./logs/", "2024."⟩ ∧
    generatePaths "./logs" SplitBy.day t0 =
      ⟨"./logs/2024/06/", "./logs/2024/06/20."⟩ ∧
    (generatePaths "./logs" SplitBy.year t0).logLocation ++ "txt.log" = "2024.txt.log" := by
  refine ⟨by decide, by decide, by decide⟩

/-- Claim C7: the text line assembled by `formTxtLog` equals the
specification's layout `formTxtLogSpec`: date segment, process tag with the
dot separator exactly when both process flags are shown, level tag, message,
and the `Log Data` suffix exactly when the data string is non-empty, in that
fixed order. -/
theorem formTxtLog_assembly (fs : FormatSettings) (m s fd msg lvl d : String) :
    formTxtLog fs m s fd msg lvl d = formTxtLogSpec fs m s fd msg lvl d := by
  obtain ⟨se, mp, sp, dt, df, lv, il⟩ := fs
  simp only [formTxtLog, formTxtLogSpec]
  by_cases hd : d = "" <;>
    cases mp <;> cases sp <;> cases dt <;> cases lv <;>
      simp [hd, String.append_assoc, -String.reduceAppend]

/-- Claim C8: `handleLogDatatype` is total and follows the conversion table:
strings pass through, primitives stringify canonically, serializable objects
render as 4-space-indented JSON (so a one-field object yields exactly the
indented form), a serialization failure yields the empty string with one
internal ERROR record, the unknown-type fallback yields the literal
"Datatype error" with one internal ERROR record, and no other case emits a
record. -/
theorem handleLogDatatype_conversion :
    (∀ s, handleLogDatatype (.jsString s) = (s, none)) ∧
    (∀ n, handleLogDatatype (.jsNumber n) = (toString n, none)) ∧
    (∀ b, handleLogDatatype (.jsBool b) = (if b then "true" else "false", none)) ∧
    (∀ n, handleLogDatatype (.jsBigint n) = (toString n, none)) ∧
    (∀ d, handleLogDatatype (.jsSymbol d) = ("Symbol(" ++ d ++ ")", none)) ∧
    (∀ f, handleLogDatatype (.jsFunction f) = (f, none)) ∧
    (∀ fields, handleLogDatatype (.jsObject fields false) = (stringify4 fields, none)) ∧
    (∀ fields, handleLogDatatype (.jsObject fields true) =
      ("", some ⟨LogLevel.ERROR, "Datatype of object is not json"⟩)) ∧
    handleLogDatatype .jsUnknown =
      ("Datatype error", some ⟨LogLevel.ERROR, "Datatype Error"⟩) ∧
    stringify4 [("a", 1)] = "\x7b\n    \"a\": 1\n\x7d" ∧
    (∀ v, ((handleLogDatatype v).2).isSome = true →
      v = .jsUnknown ∨ ∃ fields, v = .jsObject fields true) := by
  refine ⟨fun s => rfl, fun n => rfl, fun b => rfl, fun n => rfl, fun d => rfl,
    fun f => rfl, fun fields => rfl, fun fields => rfl, rfl, by decide, ?_⟩
  intro v h
  cases v with
  | jsObject fields circular =>
      cases circular with
      | false => simp [handleLogDatatype] at h
      | true => exact Or.inr ⟨fields, rfl⟩
  | jsUnknown => exact Or.inl rfl
  | jsUndefined => simp [handleLogDatatype] at h
  | jsNull => simp [handleLogDatatype] at h
  | jsString s => simp [handleLogDatatype] at h
  | jsNumber n => simp [handleLogDatatype] at h
  | jsBool b => simp [handleLogDatatype] at h
  | jsBigint n => simp [handleLogDatatype] at h
  | jsSymbol d => simp [handleLogDatatype] at h
  | jsFunction f => simp [handleLogDatatype] at h

/-- Witness for claim C8: the unknown-type fallback is one of the two cases
that emit an internal record. -/
theorem handleLogDatatype_conversion_witness :
    ((handleLogDatatype JSValue.jsUnknown).2).isSome = true ∧
    (JSValue.jsUnknown = JSValue.jsUnknown ∨
      ∃ fields, JSValue.jsUnknown = JSValue.jsObject fields true) :=
  ⟨rfl, handleLogDatatype_conversion.2.2.2.2.2.2.2.2.2.2 JSValue.jsUnknown rfl⟩

/-- Claim C10: null and undefined data convert to the empty string, in which
case the rendered text line carries no `Log Data` suffix (it equals the
suffix-free assembly) and the JSON record's `logData` field is the empty
string — null data behaves exactly like absent data. -/
theorem null_data_treated_as_absent :
    handleLogDatatype .jsNull = ("", none) ∧
    handleLogDatatype .jsUndefined = ("", none) ∧
    (∀ fs m s fd msg lvl, formTxtLog fs m s fd msg lvl "" =
      (if fs.date then "[" ++ fd ++ "] " else "") ++
      ((if fs.mainProgram || fs.subProgram then "<" else "") ++
       ((if fs.mainProgram then m else "") ++
        ((if fs.mainProgram && fs.subProgram then "." else "") ++
         ((if fs.subProgram then s else "") ++
          ((if fs.mainProgram || fs.subProgram then "> " else "") ++
           ((if fs.level then "[" ++ lvl ++ "] " else "") ++ msg))))))) ∧
    (∀ t fd m s lvl msgS, (mkLogJSON t fd m s lvl msgS "").logData = "") := by
  refine ⟨rfl, rfl, ?_, fun t fd m s lvl msgS => rfl⟩
  intro fs m s fd msg lvl
  simp [formTxtLog, String.append_assoc, -String.reduceAppend]

/-- Claim C2: when an eligible record is appended (webhook reachable:
url present, discord provider, level not FATAL_RATE_LIMITED), a delivery of
the whole batch is attempted exactly when the batch length reaches 8 after
the append, and then the delivered batch is precisely the 8 buffered items;
a length above 8 after the append is the overflow branch: no delivery, one
internal FATAL_RATE_LIMITED record, batch discarded; after any delivery
attempt or overflow the batch is empty. -/
theorem webhook_batch_bound (ws : WebhookSettings) (m s fd msg : String)
    (level : LogLevel) (d : String) (buf : List Embed) (r : WebhookStepResult)
    (hurl : ws.url ≠ none) (hform : ws.form = "discord")
    (hlevel : level ≠ LogLevel.FATALRATE)
    (hr : sendWebhook ws m s fd msg level d buf = r) :
    (r.delivery.isSome ↔ buf.length + 1 = 8) ∧
    (∀ batch, r.delivery = some batch →
      batch = buf ++ [buildEmbed m s level msg d fd] ∧ batch.length = 8) ∧
    (buf.length + 1 > 8 →
      r.delivery = none ∧ r.fatalRateEmitted = true ∧ r.buffer = []) ∧
    (buf.length + 1 < 8 →
      r.delivery = none ∧ r.fatalRateEmitted = false ∧
      r.buffer = buf ++ [buildEmbed m s level msg d fd]) ∧
    ((r.delivery.isSome ∨ buf.length + 1 > 8) → r.buffer = []) := by
  subst hr
  have hform2 : ¬ ws.form ≠ "discord" := fun hh => hh hform
  simp only [sendWebhook, if_neg hlevel, if_neg hurl, if_neg hform2,
    List.length_append, List.length_singleton]
  by_cases hgt : buf.length + 1 > 8
  · simp only [if_pos hgt]
    refine ⟨⟨fun h => by simp at h, fun h => absurd h (by omega)⟩,
      fun batch hb => by simp at hb,
      fun _ => by refine ⟨by simp, by simp, by simp⟩,
      fun h => absurd h (by omega),
      fun _ => by simp⟩
  · by_cases heq : buf.length + 1 = 8
    · simp only [if_neg hgt, if_pos heq]
      refine ⟨by simp [heq], ?_,
        fun h => absurd h (by omega),
        fun h => absurd h (by omega),
        fun _ => by simp⟩
      intro batch hb
      simp only [Option.some.injEq] at hb
      subst hb
      exact ⟨rfl, by simp; omega⟩
    · simp only [if_neg hgt, if_neg heq]
      refine ⟨⟨fun h => by simp at h, fun h => absurd h heq⟩,
        fun batch hb => by simp at hb,
        fun h => absurd h hgt,
        fun _ => by refine ⟨by simp, by simp, by simp⟩,
        ?_⟩
      rintro (h | h)
      · simp at h
      · exact absurd h hgt

/-- Witness for claim C2 at a concrete input: an enabled discord webhook, an
INFO record and an empty batch. -/
theorem webhook_batch_bound_witness :
    ((sendWebhook wsDiscord "A" "B" "fd" "msg" LogLevel.INFO "d" []).delivery.isSome ↔
      ([] : List Embed).length + 1 = 8) ∧
    (∀ batch,
      (sendWebhook wsDiscord "A" "B" "fd" "msg" LogLevel.INFO "d" []).delivery = some batch →
      batch = [] ++ [buildEmbed "A" "B" LogLevel.INFO "msg" "d" "fd"] ∧ batch.length = 8) ∧
    (([] : List Embed).length + 1 > 8 →
      (sendWebhook wsDiscord "A" "B" "fd" "msg" LogLevel.INFO "d" []).delivery = none ∧
      (sendWebhook wsDiscord "A" "B" "fd" "msg" LogLevel.INFO "d" []).fatalRateEmitted = true ∧
      (sendWebhook wsDiscord "A" "B" "fd" "msg" LogLevel.INFO "d" []).buffer = []) ∧
    (([] : List Embed).length + 1 < 8 →
      (sendWebhook wsDiscord "A" "B" "fd" "msg" LogLevel.INFO "d" []).delivery = none ∧
      (sendWebhook wsDiscord "A" "B" "fd" "msg" LogLevel.INFO "d" []).fatalRateEmitted = false ∧
      (sendWebhook wsDiscord "A" "B" "fd" "msg" LogLevel.INFO "d" []).buffer =
        [] ++ [buildEmbed "A" "B" LogLevel.INFO "msg" "d" "fd"]) ∧
    (((sendWebhook wsDiscord "A" "B" "fd" "msg" LogLevel.INFO "d" []).delivery.isSome ∨
        ([] : List Embed).length + 1 > 8) →
      (sendWebhook wsDiscord "A" "B" "fd" "msg" LogLevel.INFO "d" []).buffer = []) :=
  webhook_batch_bound wsDiscord "A" "B" "fd" "msg" LogLevel.INFO "d" []
    (sendWebhook wsDiscord "A" "B" "fd" "msg" LogLevel.INFO "d" [])
    (by decide) rfl (by decide) rfl

/-- Claim C4 failing input: a logger holding one undelivered webhook embed at
shutdown whose delivery fails with a transport error.  The `.catch` handler of
`exit` does not clear the webhook buffer, so the batch survives the first
shutdown call and a second call delivers the same batch again — while a single
successful shutdown delivers it exactly once. -/
theorem exit_double_delivery_on_transport_error :
    (exitStep ssSingle wsDiscord t0 DeliveryOutcome.transportError shut0).webhookBuffer =
      [embed0] ∧
    (exitStep ssSingle wsDiscord t0 DeliveryOutcome.success
        (exitStep ssSingle wsDiscord t0 DeliveryOutcome.transportError shut0)).deliveries =
      [[embed0], [embed0]] ∧
    (exitStep ssSingle wsDiscord t0 DeliveryOutcome.success shut0).deliveries = [[embed0]] := by
  refine ⟨by decide, by decide, by decide⟩

/-- Claim C6 counterexample: the constructor performs no validation of the
batch/strategy combination, so a configuration with `stratagy = batch` and
`batch = 1` is accepted and construction completes normally. -/
theorem construct_accepts_contradictory_batch :
    constructLogger fsDefault ssBatchOne wsDefault =
      Except.ok ⟨fsDefault, ssBatchOne, wsDefault, [], []⟩ := rfl

/-- Claim C6 amended: construction always completes (no batch invariant check),
and under `batchSize ≤ 1` the file sink silently takes the per-record
single-write path, leaving the buffer machinery unused. -/
theorem batch_le_one_silently_single (fs : FormatSettings) (ss : StorageSettings)
    (ws : WebhookSettings) (t : DateTime) (p : RenderedPair) (st : FileState)
    (hb : ss.batch ≤ 1) :
    constructLogger fs ss ws = Except.ok ⟨fs, ss, ws, [], []⟩ ∧
    logToFile ss t p st = { st with
      writesTxt := st.writesTxt ++
        (if ss.txt then
          [((generatePaths ss.path ss.splitBy t).logLocation ++ "txt.log", p.1 ++ "\n")]
        else []),
      writesJson := st.writesJson ++
        (if ss.json then
          [((generatePaths ss.path ss.splitBy t).logLocation ++ "json.log", p.2 ++ "\n")]
        else []) } := by
  refine ⟨rfl, ?_⟩
  have hc : ¬ (ss.stratagy = Strategy.batch ∧ ss.batch > 1) :=
    fun h => absurd h.2 (by omega)
  simp only [logToFile, if_neg hc]

/-- Witness for the amended claim C6 at the contradictory configuration
(batch strategy, batch size 1). -/
theorem batch_le_one_silently_single_witness :
    ssBatchOne.batch ≤ 1 ∧
    (constructLogger fsDefault ssBatchOne wsDefault =
        Except.ok ⟨fsDefault, ssBatchOne, wsDefault, [], []⟩ ∧
     logToFile ssBatchOne t0 ("x", "y") fileState0 = { fileState0 with
        writesTxt := fileState0.writesTxt ++
          (if ssBatchOne.txt then
            [((generatePaths ssBatchOne.path ssBatchOne.splitBy t0).logLocation ++ "txt.log",
              "x" ++ "\n")]
          else []),
        writesJson := fileState0.writesJson ++
          (if ssBatchOne.json then
            [((generatePaths ssBatchOne.path ssBatchOne.splitBy t0).logLocation ++ "json.log",
              "y" ++ "\n")]
          else []) }) :=
  ⟨by decide,
   batch_le_one_silently_single fsDefault ssBatchOne wsDefault t0 ("x", "y") fileState0
     (by decide)⟩

/-- Claim C9: a level in the format ignore set produces no console output, a
level in the storage ignore set (or a configuration with neither text nor JSON
output enabled) leaves the file sink untouched, and the internal
FATAL_RATE_LIMITED level (the webhook sink's own ignore set) produces no
webhook activity. -/
theorem ignored_levels_silent (fs : FormatSettings) (ss : StorageSettings)
    (ws : WebhookSettings) (m s : String) (t : DateTime) (fd : String)
    (level : LogLevel) (msg dat : JSValue) (fileSt : FileState) (whBuf : List Embed) :
    (level ∈ fs.ignoreLevels →
      (sendLog fs ss ws m s t fd level msg dat fileSt whBuf).consoleOut = none) ∧
    ((level ∈ ss.ignoreLevels ∨ (ss.txt = false ∧ ss.json = false)) →
      (sendLog fs ss ws m s t fd level msg dat fileSt whBuf).fileState = fileSt) ∧
    (level = LogLevel.FATALRATE →
      (sendLog fs ss ws m s t fd level msg dat fileSt whBuf).webhook =
        ⟨whBuf, none, false, false⟩) := by
  refine ⟨?_, ?_, ?_⟩
  · intro h
    simp [sendLog, h]
  · intro h
    rcases h with h | ⟨h1, h2⟩
    · simp [sendLog, h]
    · simp [sendLog, h1, h2]
  · intro h
    subst h
    by_cases he : ws.enable
    · simp [sendLog, he, sendWebhook_fatalrate_noop]
    · simp [sendLog, he]

/-- Witness for claim C9: with the default ignore sets a DEBUG record reaches
neither console nor file, and a FATAL_RATE_LIMITED record never reaches the
webhook sink. -/
theorem ignored_levels_silent_witness :
    (sendLog fsDefault ssBatchOne wsDefault "A" "B" t0 "fd" LogLevel.DEBUG
      (.jsString "m") .jsNull fileState0 []).consoleOut = none ∧
    (sendLog fsDefault ssBatchOne wsDefault "A" "B" t0 "fd" LogLevel.DEBUG
      (.jsString "m") .jsNull fileState0 []).fileState = fileState0 ∧
    (sendLog fsDefault ssBatchOne wsDefault "A" "B" t0 "fd" LogLevel.FATALRATE
      (.jsString "m") .jsNull fileState0 []).webhook = ⟨[], none, false, false⟩ :=
  ⟨(ignored_levels_silent fsDefault ssBatchOne wsDefault "A" "B" t0 "fd" LogLevel.DEBUG
      (.jsString "m") .jsNull fileState0 []).1 (by decide),
   (ignored_levels_silent fsDefault ssBatchOne wsDefault "A" "B" t0 "fd" LogLevel.DEBUG
      (.jsString "m") .jsNull fileState0 []).2.1 (Or.inl (by decide)),
   (ignored_levels_silent fsDefault ssBatchOne wsDefault "A" "B" t0 "fd" LogLevel.FATALRATE
      (.jsString "m") .jsNull fileState0 []).2.2 rfl⟩

lemma logToFile_full (ss : StorageSettings) (hstrat : ss.stratagy = Strategy.batch)
    (hB : 1 < ss.batch) (t : DateTime) (p : RenderedPair) (s : FileState)
    (h : s.logBuffer.length + 1 = ss.batch) :
    logToFile ss t p s = extractBuffer ss t { s with logBuffer := s.logBuffer ++ [p] } := by
  have hc : ss.stratagy = Strategy.batch ∧ ss.batch > 1 := ⟨hstrat, by omega⟩
  have hl : (s.logBuffer ++ [p]).length ≥ ss.batch := by
    rw [List.length_append, List.length_singleton]; omega
  simp only [logToFile, if_pos hc, if_pos hl]

lemma logToFile_push (ss : StorageSettings) (hstrat : ss.stratagy = Strategy.batch)
    (hB : 1 < ss.batch) (t : DateTime) (p : RenderedPair) (s : FileState)
    (h : s.logBuffer.length + 1 < ss.batch) :
    logToFile ss t p s = { s with logBuffer := s.logBuffer ++ [p] } := by
  have hc : ss.stratagy = Strategy.batch ∧ ss.batch > 1 := ⟨hstrat, by omega⟩
  have hl : ¬ (s.logBuffer ++ [p]).length ≥ ss.batch := by
    rw [List.length_append, List.length_singleton]; omega
  simp only [logToFile, if_pos hc, if_neg hl]

lemma extractBuffer_eq (ss : StorageSettings) (htxt : ss.txt = true)
    (hjson : ss.json = true) (t : DateTime) (s : FileState) :
    extractBuffer ss t s = ⟨[], s.flushCount + 1,
      s.writesTxt ++ [((generatePaths ss.path ss.splitBy t).logLocation ++ "txt.log",
        bufTxt s.logBuffer)],
      s.writesJson ++ [((generatePaths ss.path ss.splitBy t).logLocation ++ "json.log",
        bufJson s.logBuffer)]⟩ := by
  simp [extractBuffer, htxt, hjson]

lemma dispatchAll_batch_inv (ss : StorageSettings) (hstrat : ss.stratagy = Strategy.batch)
    (hB : 1 < ss.batch) (htxt : ss.txt = true) (hjson : ss.json = true) :
    ∀ (ps : List (DateTime × RenderedPair)) (s : FileState),
      s.logBuffer.length < ss.batch →
      (dispatchAll ss ps s).logBuffer.length < ss.batch ∧
      strConcat ((dispatchAll ss ps s).writesTxt.map Prod.snd) ++
          bufTxt (dispatchAll ss ps s).logBuffer =
        strConcat (s.writesTxt.map Prod.snd) ++
          (bufTxt s.logBuffer ++ strConcat (ps.map (fun q => q.2.1 ++ "\n"))) ∧
      strConcat ((dispatchAll ss ps s).writesJson.map Prod.snd) ++
          bufJson (dispatchAll ss ps s).logBuffer =
        strConcat (s.writesJson.map Prod.snd) ++
          (bufJson s.logBuffer ++ strConcat (ps.map (fun q => q.2.2 ++ "\n"))) ∧
      ∃ k, (dispatchAll ss ps s).flushCount = s.flushCount + k ∧
        s.logBuffer.length + ps.length = k * ss.batch +
          (dispatchAll ss ps s).logBuffer.length := by
  intro ps
  induction ps with
  | nil =>
      intro s h
      refine ⟨h, by simp [dispatchAll, strConcat], by simp [dispatchAll, strConcat],
        0, rfl, by simp [dispatchAll]⟩
  | cons q ps ih =>
      intro s h
      have hd : dispatchAll ss (q :: ps) s = dispatchAll ss ps (logToFile ss q.1 q.2 s) := rfl
      by_cases hfull : s.logBuffer.length + 1 = ss.batch
      · rw [hd, logToFile_full ss hstrat hB q.1 q.2 s hfull, extractBuffer_eq ss htxt hjson]
        obtain ⟨ih1, ih2, ih3, k, ihk1, ihk2⟩ :=
          ih (⟨[], s.flushCount + 1,
            s.writesTxt ++ [((generatePaths ss.path ss.splitBy q.1).logLocation ++ "txt.log",
              bufTxt (s.logBuffer ++ [q.2]))],
            s.writesJson ++ [((generatePaths ss.path ss.splitBy q.1).logLocation ++ "json.log",
              bufJson (s.logBuffer ++ [q.2]))]⟩ : FileState) (by simp; omega)
        dsimp only at ih1 ih2 ih3 ihk1 ihk2
        refine ⟨ih1, ?_, ?_, k + 1, ?_, ?_⟩
        · rw [ih2]
          simp [List.map_append, strConcat_append, strConcat_singleton, strConcat_cons,
            strConcat, bufTxt_append_one, bufTxt_nil, String.append_assoc,
            -String.reduceAppend]
        · rw [ih3]
          simp [List.map_append, strConcat_append, strConcat_singleton, strConcat_cons,
            strConcat, bufJson_append_one, bufJson_nil, String.append_assoc,
            -String.reduceAppend]
        · rw [ihk1]
          omega
        · simp only [List.length_nil, Nat.zero_add, List.length_cons] at ihk2 ⊢
          rw [Nat.succ_mul]
          generalize k * ss.batch = A at ihk2 ⊢
          omega
      · have hlt : s.logBuffer.length + 1 < ss.batch := by omega
        rw [hd, logToFile_push ss hstrat hB q.1 q.2 s hlt]
        obtain ⟨ih1, ih2, ih3, k, ihk1, ihk2⟩ :=
          ih ({ s with logBuffer := s.logBuffer ++ [q.2] }) (by simp; omega)
        dsimp only at ih1 ih2 ih3 ihk1 ihk2
        refine ⟨ih1, ?_, ?_, k, ?_, ?_⟩
        · rw [ih2]
          simp [bufTxt_append_one, strConcat_cons, String.append_assoc, -String.reduceAppend]
        · rw [ih3]
          simp [bufJson_append_one, strConcat_cons, String.append_assoc, -String.reduceAppend]
        · exact ihk1
        · simp only [List.length_append, List.length_singleton, List.length_cons,
            List.length_nil] at ihk2 ⊢
          generalize k * ss.batch = A at ihk2 ⊢
          omega

/-- Claim C1 (amended): dispatching N records single-threaded with the batch
strategy and batch size B greater than 1, followed by the shutdown drain,
performs exactly floor(N/B) threshold drains plus the one unconditional
shutdown drain; the concatenation of all flushed text (and JSON) content
equals the FIFO concatenation of the submitted newline-terminated lines with
no reordering, loss, or duplication, and the buffer ends empty. -/
theorem batch_drain_fifo (ss : StorageSettings) (hstrat : ss.stratagy = Strategy.batch)
    (hB : 1 < ss.batch) (htxt : ss.txt = true) (hjson : ss.json = true)
    (ps : List (DateTime × RenderedPair)) (t : DateTime) :
    (extractBuffer ss t (dispatchAll ss ps fileState0)).flushCount =
      ps.length / ss.batch + 1 ∧
    strConcat ((extractBuffer ss t (dispatchAll ss ps fileState0)).writesTxt.map Prod.snd) =
      strConcat (ps.map (fun q => q.2.1 ++ "\n")) ∧
    strConcat ((extractBuffer ss t (dispatchAll ss ps fileState0)).writesJson.map Prod.snd) =
      strConcat (ps.map (fun q => q.2.2 ++ "\n")) ∧
    (extractBuffer ss t (dispatchAll ss ps fileState0)).logBuffer = [] := by
  obtain ⟨h1, h2, h3, k, hk1, hk2⟩ :=
    dispatchAll_batch_inv ss hstrat hB htxt hjson ps fileState0 (by simp [fileState0]; omega)
  rw [extractBuffer_eq ss htxt hjson]
  refine ⟨?_, ?_, ?_, rfl⟩
  · have hlen : ps.length = ss.batch * k + (dispatchAll ss ps fileState0).logBuffer.length := by
      generalize hA : k * ss.batch = A at hk2
      rw [Nat.mul_comm, hA]
      simpa [fileState0] using hk2
    rw [hlen, Nat.mul_add_div (by omega), Nat.div_eq_of_lt h1]
    simp only [hk1]
    simp [fileState0]
  · rw [List.map_append, strConcat_append]
    simp only [List.map_cons, List.map_nil, strConcat_singleton]
    rw [h2]
    simp [fileState0, bufTxt_nil, strConcat]
  · rw [List.map_append, strConcat_append]
    simp only [List.map_cons, List.map_nil, strConcat_singleton]
    rw [h3]
    simp [fileState0, bufJson_nil, strConcat]

/-- Witness for the amended claim C1: batch size 2, three records, two
threshold drains would be one, plus the shutdown drain. -/
theorem batch_drain_fifo_witness :
    ssBatch2.stratagy = Strategy.batch ∧ 1 < ssBatch2.batch ∧
    ssBatch2.txt = true ∧ ssBatch2.json = true ∧
    ((extractBuffer ssBatch2 t0 (dispatchAll ssBatch2 ps3 fileState0)).flushCount =
        ps3.length / ssBatch2.batch + 1 ∧
      strConcat ((extractBuffer ssBatch2 t0 (dispatchAll ssBatch2 ps3 fileState0)).writesTxt.map
          Prod.snd) =
        strConcat (ps3.map (fun q => q.2.1 ++ "\n")) ∧
      strConcat ((extractBuffer ssBatch2 t0 (dispatchAll ssBatch2 ps3 fileState0)).writesJson.map
          Prod.snd) =
        strConcat (ps3.map (fun q => q.2.2 ++ "\n")) ∧
      (extractBuffer ssBatch2 t0 (dispatchAll ssBatch2 ps3 fileState0)).logBuffer = []) :=
  ⟨rfl, by decide, rfl, rfl,
   batch_drain_fifo ssBatch2 rfl (by decide) rfl rfl ps3 t0⟩

/-- Claim C1 counterexample to the stated flush count: two records with batch
size 2 cause one threshold drain during dispatch, and the shutdown drain still
runs on the then-empty buffer, so the sink performs 2 drains where the claim's
ceil(2/2) predicts exactly 1. -/
theorem batch_flush_count_claim_false :
    (extractBuffer ssBatch2 t0
      (dispatchAll ssBatch2 [(t0, ("a", "A")), (t0, ("b", "B"))] fileState0)).flushCount = 2 ∧
    (2 + 2 - 1) / 2 = 1 ∧
    ¬ (extractBuffer ssBatch2 t0
      (dispatchAll ssBatch2 [(t0, ("a", "A")), (t0, ("b", "B"))] fileState0)).flushCount =
        (2 + 2 - 1) / 2 := by
  refine ⟨by decide, by decide, by decide⟩

end LouisLog
